import Mathlib

/-!
Shallow embedding of the yamdb review-platform backend
(`api_yamdb`: `reviews/models.py`, `api/permissions.py`, `api/serializers.py`,
`api/views.py`).  Entities are plain records, the database is a list of
records, and each HTTP operation becomes a function from the relevant state
to `Except ApiError result`.  External collaborators (the mail sender, the
token codec, the e-mail format validation of the web framework) appear as
function parameters, following the external-interface section of the spec.
-/

/-- Roles of `User.CHOICES` in `reviews/models.py`. -/
inductive Role where
  | user
  | moderator
  | admin
deriving DecidableEq, Repr

/-- The `User` model (`reviews/models.py`): identity, unique username and
e-mail, a role and the staff flag inherited from `AbstractUser`. -/
structure User where
  id : Nat
  username : String
  email : String
  role : Role
  is_staff : Bool
deriving DecidableEq, Repr

/-- `User.is_admin` property: `self.role == self.ADMIN or self.is_staff`. -/
def User.is_admin (u : User) : Bool :=
  u.role == Role.admin || u.is_staff

/-- `User.is_moderator` property: `self.role == self.MODERATOR`. -/
def User.is_moderator (u : User) : Bool :=
  u.role == Role.moderator

/-- The acting identity of a request: `none` is an anonymous actor
(Django's `AnonymousUser`), `some u` an authenticated user. -/
def Actor : Type := Option User

/-- The `Title` model (`reviews/models.py`): pk, name, release year
(a `PositiveIntegerField`). Category/genre references play no role in the
verified claims and are omitted. -/
structure Title where
  id : Nat
  name : String
  year : Nat
deriving DecidableEq, Repr

/-- The `Review` model (`reviews/models.py`): pk, FK to `Title`, FK to the
author `User`, text and an integer score (validated into `[1, 10]`). -/
structure Review where
  id : Nat
  titleId : Nat
  authorId : Nat
  text : String
  score : Nat
deriving DecidableEq, Repr

/-- The `Comment` model (`reviews/models.py`): pk, FK to `Review`, FK to the
author `User`, text. -/
structure Comment where
  id : Nat
  reviewId : Nat
  authorId : Nat
  text : String
deriving DecidableEq, Repr

/-- Errors surfaced by the API, following the error taxonomy of the code:
`ValidationError` raised by serializers (HTTP 400), `NotFound` raised by
`get_object_or_404` (HTTP 404), a denied permission check (HTTP 403), and
an unhandled exception escaping a view, which the framework turns into an
HTTP 500 server error. -/
inductive ApiError where
  | validationError
  | notFound
  | authorizationError
  | serverError
deriving DecidableEq, Repr

/-- ViewSet actions of Django REST Framework: `list`/`retrieve` are the safe
(GET) actions, the rest are mutating. -/
inductive ViewAction where
  | list
  | retrieve
  | create
  | update
  | updatePartial
  | destroy
deriving DecidableEq, Repr

/-- Whether the HTTP method behind an action is one of `SAFE_METHODS`
(GET/HEAD/OPTIONS): true exactly for `list` and `retrieve`. -/
def ViewAction.isSafe : ViewAction → Bool
  | .list => true
  | .retrieve => true
  | _ => false

/-- `IsAuthenticated.has_permission`: the request user exists and is
authenticated.  In the embedding, an authenticated user is `some u`. -/
def IsAuthenticated.has_permission (actor : Option User) : Bool :=
  actor.isSome

/-- `IsAdminRole.has_permission` (`api/permissions.py`):
`super().has_permission(...) and request.user.is_admin`, with
`IsAuthenticated` as the superclass. -/
def IsAdminRole.has_permission (actor : Option User) : Bool :=
  IsAuthenticated.has_permission actor &&
    (match actor with
     | none => false
     | some u => u.is_admin)

/-- `IsReadOnly.has_permission` (`api/permissions.py`):
`request.method in SAFE_METHODS`. -/
def IsReadOnly.has_permission (action : ViewAction) : Bool :=
  action.isSafe

/-- `IsAuthenticatedOrReadOnly.has_permission` of the framework, the
superclass of `RetrieveOnlyOrHasCUDPermissions`: safe method or
authenticated user. -/
def IsAuthenticatedOrReadOnly.has_permission
    (actor : Option User) (action : ViewAction) : Bool :=
  action.isSafe || actor.isSome

/-- `RetrieveOnlyOrHasCUDPermissions.has_object_permission`
(`api/permissions.py`): `True` when `view.action == 'retrieve'`, otherwise
`user.is_admin or user.is_moderator or user == obj.author` (Django compares
model instances by pk).  The anonymous branch is unreachable in the combined
check below, because `has_permission` already rejects anonymous mutation. -/
def RetrieveOnlyOrHasCUDPermissions.has_object_permission
    (actor : Option User) (action : ViewAction) (objAuthorId : Nat) : Bool :=
  if action == ViewAction.retrieve then
    true
  else
    match actor with
    | none => false
    | some u => u.is_admin || u.is_moderator || u.id == objAuthorId

/-- The framework's combined object-level decision for a Review/Comment
detail request: `has_permission` is checked at dispatch,
`has_object_permission` when the object is fetched. -/
def RetrieveOnlyOrHasCUDPermissions.check
    (actor : Option User) (action : ViewAction) (objAuthorId : Nat) : Bool :=
  IsAuthenticatedOrReadOnly.has_permission actor action &&
    RetrieveOnlyOrHasCUDPermissions.has_object_permission actor action objAuthorId

/-- The reviews of a title: `title.reviews.all()`, i.e. the reviews whose
`title` FK equals the title's pk. -/
def reviewsOfTitle (db : List Review) (titleId : Nat) : List Review :=
  db.filter (fun r => r.titleId == titleId)

/-- SQL `AVG` over a list of integer scores: `NULL` on an empty set,
otherwise the exact quotient sum / count. -/
def sqlAvg (xs : List Nat) : Option ℚ :=
  if xs.isEmpty then none else some ((xs.sum : ℚ) / (xs.length : ℚ))

/-- The `rating` annotation of `TitleViewSet.queryset`
(`api/views.py`): `Title.objects.annotate(rating=Avg('reviews__score'))`,
rendered by `TitleViewSerializer` (a `None` attribute serialises to null). -/
def TitleViewSet.rating (db : List Review) (titleId : Nat) : Option ℚ :=
  sqlAvg ((reviewsOfTitle db titleId).map Review.score)

/-- The arithmetic mean, written from the spec's words
("rating equals the arithmetic mean of associated Review scores") for
comparison with the annotation computed by the code. -/
def specArithmeticMean (xs : List Nat) : ℚ :=
  (xs.sum : ℚ) / (xs.length : ℚ)

/-- Client-visible input of `ReviewSerializer`: writable fields are `text`
and `score`; `author` is declared `read_only` and `title` is excluded, so a
client may send them but they never reach `validated_data`. -/
structure ReviewInput where
  text : String
  score : Nat
  clientAuthor : Option Nat
  clientTitle : Option Nat
deriving DecidableEq, Repr

/-- `ReviewSerializer.validate` (`api/serializers.py`): look for an existing
review by the requesting user on the title of the URL; raise a
`ValidationError` when one exists and the request method is POST. -/
def ReviewSerializer.validate
    (db : List Review) (actorId titleId : Nat) (isPost : Bool) : Bool :=
  !(db.any (fun r => r.authorId == actorId && r.titleId == titleId) && isPost)

/-- Score bounds of `Review.score`
(`MinValueValidator(1)`, `MaxValueValidator(10)`), enforced by the
serializer's field validation before `validate` runs. -/
def Review.scoreOk (score : Nat) : Bool :=
  1 ≤ score && score ≤ 10

/-- The review-creation flow of `ReviewView` (`api/views.py`) on a POST to
`titles/<title_id>/reviews`: field validation, then
`ReviewSerializer.validate`, then `perform_create`, which resolves the
title with `get_object_or_404` and saves with
`author=self.request.user, title=title`.  `newId` is the pk the store
assigns to the inserted row. -/
def ReviewView.create (titles : List Title) (db : List Review)
    (actorId titleId newId : Nat) (input : ReviewInput) :
    Except ApiError (List Review) :=
  if !Review.scoreOk input.score then
    .error .validationError
  else if !ReviewSerializer.validate db actorId titleId true then
    .error .validationError
  else
    match titles.find? (fun t => t.id == titleId) with
    | none => .error .notFound
    | some t =>
        .ok ({ id := newId, titleId := t.id, authorId := actorId,
               text := input.text, score := input.score } :: db)

/-- Client-visible input of `CommentSerializer`: the writable field is
`text`; `author` is `read_only` and `review` is excluded. -/
structure CommentInput where
  text : String
  clientAuthor : Option Nat
  clientReview : Option Nat
deriving DecidableEq, Repr

/-- The nested review lookup shared by `CommentView.perform_create` and
`CommentView.get_queryset`:
`get_object_or_404(Review, pk=review_id, title__pk=title_id)`. -/
def CommentView.resolveReview
    (reviews : List Review) (titleId reviewId : Nat) : Option Review :=
  reviews.find? (fun r => r.id == reviewId && r.titleId == titleId)

/-- `CommentView.get_queryset` (`api/views.py`): resolve the review under
both path ids, fail NotFound when absent, else return
`review.comments.all()`. -/
def CommentView.get_queryset (reviews : List Review) (comments : List Comment)
    (titleId reviewId : Nat) : Except ApiError (List Comment) :=
  match CommentView.resolveReview reviews titleId reviewId with
  | none => .error .notFound
  | some r => .ok (comments.filter (fun c => c.reviewId == r.id))

/-- The comment-creation flow of `CommentView` on a POST to
`titles/<title_id>/reviews/<review_id>/comments`: `perform_create` resolves
the review under both path ids and saves with
`author=self.request.user, review=review`. -/
def CommentView.create (reviews : List Review) (comments : List Comment)
    (actorId titleId reviewId newId : Nat) (input : CommentInput) :
    Except ApiError (List Comment) :=
  match CommentView.resolveReview reviews titleId reviewId with
  | none => .error .notFound
  | some r =>
      .ok ({ id := newId, reviewId := r.id, authorId := actorId,
             text := input.text } :: comments)

/-- Field validation of `JWTTokenSerializer` (`api/serializers.py`): both
`CharField`s are required, non-blank and at most 150 characters. -/
def JWTTokenSerializer.is_valid (username code : String) : Bool :=
  username ≠ "" && username.length ≤ 150 && code ≠ "" && code.length ≤ 150

/-- The opaque access token the exchange endpoint is meant to return,
bound to a user's identity (`AccessToken.for_user(user)` carries the
user's pk).  The endpoint's crashing success branch never produces one. -/
structure Token where
  userId : Nat
deriving DecidableEq, Repr

/-- `get_jwt_token` (`api/views.py`): validate the serializer input, look
the user up by username with `get_object_or_404`, and check the
confirmation code with the external collaborator
`default_token_generator.check_token`.  When the check accepts, the view
evaluates `AccessToken.for_user(user).access_token()`; in
`rest_framework_simplejwt` the `AccessToken` class has no `access_token`
member (only `RefreshToken` carries one, and as a property, not a
callable), so the attribute access raises an `AttributeError` that escapes
the view as an HTTP 500 — the branch never produces the token the view's
own docstring promises. -/
def get_jwt_token (check : User → String → Bool) (users : List User)
    (username code : String) : Except ApiError Token :=
  if !JWTTokenSerializer.is_valid username code then
    .error .validationError
  else
    match users.find? (fun u => u.username == username) with
    | none => .error .notFound
    | some u =>
        if check u code then .error .serverError
        else .error .validationError

/-- Field and `validate_username` validation of `ConfirmationCodeSerializer`
(`api/serializers.py`): `username` required, non-blank, at most 150
characters and not the reserved string `"me"`; `email` a required
`EmailField` of at most 254 characters, whose format check `emailOk` is the
framework collaborator. -/
def ConfirmationCodeSerializer.is_valid (emailOk : String → Bool)
    (username email : String) : Bool :=
  username ≠ "" && username.length ≤ 150 && username ≠ "me" &&
    email ≠ "" && email.length ≤ 254 && emailOk email

/-- `send_confirmation_code` (`api/views.py`): validate, then
`get_or_create` the user by the (username, email) pair — reusing just one
of the two unique fields makes the create raise, caught and returned as a
400.  The result is the user list after the request together with the
`created` flag. -/
def send_confirmation_code (emailOk : String → Bool) (users : List User)
    (username email : String) (newId : Nat) :
    Except ApiError (List User × Bool) :=
  if !ConfirmationCodeSerializer.is_valid emailOk username email then
    .error .validationError
  else if users.any (fun u => u.username == username && u.email == email) then
    .ok (users, false)
  else if users.any (fun u => u.username == username || u.email == email) then
    .error .validationError
  else
    .ok ({ id := newId, username := username, email := email,
           role := Role.user, is_staff := false } :: users, true)

/-- The `MaxValueValidator(dt.datetime.today().year)` on `Title.year`
(`reviews/models.py`).  `dt.datetime.today()` runs once, when the model
class body is evaluated at module load: `loadYear` is the calendar year at
that moment, not at request time. -/
def Title.yearOk (loadYear year : Nat) : Bool :=
  year ≤ loadYear

/-- The year validation applied by a Title create or update
(`TitlePostSerializer` maps the model field together with its
validators): accept the payload year or reject with a `ValidationError`. -/
def TitleViewSet.validateYear (loadYear year : Nat) : Except ApiError Nat :=
  if Title.yearOk loadYear year then .ok year else .error .validationError

/-- Actions contributed by `mixins.CreateModelMixin`. -/
def CreateModelMixin.actions : List ViewAction := [.create]

/-- Actions contributed by `mixins.ListModelMixin`. -/
def ListModelMixin.actions : List ViewAction := [.list]

/-- Actions contributed by `mixins.DestroyModelMixin`. -/
def DestroyModelMixin.actions : List ViewAction := [.destroy]

/-- The actions of `CreateListViewSet` (`api/views.py`): a `GenericViewSet`
with exactly the create, list and destroy mixins. -/
def CreateListViewSet.actions : List ViewAction :=
  CreateModelMixin.actions ++ ListModelMixin.actions ++ DestroyModelMixin.actions

/-- `CategoryViewSet` inherits its actions from `CreateListViewSet`. -/
def CategoryViewSet.actions : List ViewAction := CreateListViewSet.actions

/-- `GenreViewSet` inherits its actions from `CreateListViewSet`. -/
def GenreViewSet.actions : List ViewAction := CreateListViewSet.actions

/-- The (title, author) uniqueness invariant of `Review.Meta.constraints`
(`just_one_review_per_author`): no two stored reviews share their
(title, author) pair. -/
def atMostOneReviewPerPair (db : List Review) : Prop :=
  db.Pairwise (fun r1 r2 => ¬(r1.authorId = r2.authorId ∧ r1.titleId = r2.titleId))

deriving instance DecidableEq for Except

instance (db : List Review) : Decidable (atMostOneReviewPerPair db) := by
  unfold atMostOneReviewPerPair
  infer_instance

/-- C1: for every Title, the rating served by the Title list/retrieve
operations equals the arithmetic mean of the scores of the Title's reviews,
and is null (absent, not zero) exactly when the Title has no reviews. -/
theorem title_rating_is_arithmetic_mean (db : List Review) (titleId : Nat) :
    TitleViewSet.rating db titleId =
      (if reviewsOfTitle db titleId = [] then none
       else some (specArithmeticMean ((reviewsOfTitle db titleId).map Review.score))) ∧
    (TitleViewSet.rating db titleId = none ↔ reviewsOfTitle db titleId = []) := by
  unfold TitleViewSet.rating sqlAvg specArithmeticMean
  constructor
  · by_cases h : reviewsOfTitle db titleId = [] <;> simp [h]
  · by_cases h : reviewsOfTitle db titleId = [] <;> simp [h]

/-- C2: from a state satisfying the one-review-per-(title, author)
invariant, a successful review creation preserves the invariant, and a POST
by an author who already has a review on the title always fails with a
ValidationError (an error result carries no new state, so the stored
reviews are unchanged). -/
theorem one_review_per_title_author
    (titles : List Title) (db : List Review)
    (actorId titleId newId : Nat) (input : ReviewInput)
    (hinv : atMostOneReviewPerPair db) :
    (∀ db2, ReviewView.create titles db actorId titleId newId input = .ok db2 →
      atMostOneReviewPerPair db2) ∧
    ((∃ r ∈ db, r.authorId = actorId ∧ r.titleId = titleId) →
      ReviewView.create titles db actorId titleId newId input =
        .error .validationError) := by
  constructor
  · intro db2 hok
    unfold ReviewView.create at hok
    split at hok
    · cases hok
    · split at hok
      next hval =>
        cases hok
      next hval =>
        have hval2 : ReviewSerializer.validate db actorId titleId true = true := by
          simpa using hval
        unfold ReviewSerializer.validate at hval2
        simp only [Bool.not_eq_eq_eq_not, Bool.not_true, Bool.and_eq_false_iff]
          at hval2
        cases hfind : titles.find? (fun t => t.id == titleId) with
        | none => rw [hfind] at hok; cases hok
        | some t =>
            rw [hfind] at hok
            injection hok with hdb2
            subst hdb2
            have ht : t.id = titleId := by
              have := List.find?_some hfind
              simpa using this
            refine List.Pairwise.cons ?_ hinv
            intro r hr hcontra
            rcases hval2 with hany | hfalse
            · rw [List.any_eq_false] at hany
              apply hany r hr
              simp only [Bool.and_eq_true, beq_iff_eq]
              exact ⟨hcontra.1.symm, by rw [← hcontra.2, ht]⟩
            · cases hfalse
  · rintro ⟨r, hr, ha, ht⟩
    have hany : db.any (fun r => r.authorId == actorId && r.titleId == titleId)
        = true := by
      refine List.any_eq_true.mpr ⟨r, hr, ?_⟩
      simp [ha, ht]
    unfold ReviewView.create
    cases hs : Review.scoreOk input.score <;>
      simp [hs, ReviewSerializer.validate, hany]

/-- C2 witness: a concrete state with one review by author 1 on title 1
satisfies the invariant, and a second POST by the same author on the same
title is rejected with a ValidationError. -/
theorem one_review_per_title_author_witness :
    atMostOneReviewPerPair ([⟨1, 1, 1, "good", 5⟩] : List Review) ∧
    (∃ r ∈ ([⟨1, 1, 1, "good", 5⟩] : List Review),
      r.authorId = 1 ∧ r.titleId = 1) ∧
    ReviewView.create ([⟨1, "film", 2000⟩] : List Title)
        ([⟨1, 1, 1, "good", 5⟩] : List Review) 1 1 2
        ⟨"again", 6, none, none⟩ = .error .validationError :=
  ⟨by decide, ⟨⟨1, 1, 1, "good", 5⟩, by decide, by decide, by decide⟩,
    (one_review_per_title_author ([⟨1, "film", 2000⟩] : List Title)
        ([⟨1, 1, 1, "good", 5⟩] : List Review) 1 1 2 ⟨"again", 6, none, none⟩
        (by decide)).2
      ⟨⟨1, 1, 1, "good", 5⟩, by decide, by decide, by decide⟩⟩

/-- C3: a Comment list request for `(title_id, review_id)` fails with
NotFound exactly when no review has both that id and that parent title, and
a successful request returns only comments of that review. -/
theorem comment_lookup_scoped_to_title
    (reviews : List Review) (comments : List Comment)
    (titleId reviewId : Nat) :
    (CommentView.get_queryset reviews comments titleId reviewId =
        .error .notFound ↔
      ∀ r ∈ reviews, ¬(r.id = reviewId ∧ r.titleId = titleId)) ∧
    (∀ cs, CommentView.get_queryset reviews comments titleId reviewId =
        .ok cs → ∀ c ∈ cs, c.reviewId = reviewId) := by
  constructor
  · have key : CommentView.get_queryset reviews comments titleId reviewId =
        .error .notFound ↔
        reviews.find? (fun r => r.id == reviewId && r.titleId == titleId) =
          none := by
      unfold CommentView.get_queryset CommentView.resolveReview
      cases hf : reviews.find?
          (fun r => r.id == reviewId && r.titleId == titleId) <;> simp [hf]
    rw [key, List.find?_eq_none]
    constructor
    · intro h r hr
      have := h r hr
      simpa using this
    · intro h r hr
      have := h r hr
      simpa using this
  · intro cs hok c hc
    unfold CommentView.get_queryset CommentView.resolveReview at hok
    cases hf : reviews.find?
        (fun r => r.id == reviewId && r.titleId == titleId) with
    | none => rw [hf] at hok; cases hok
    | some r =>
        rw [hf] at hok
        injection hok with hcs
        subst hcs
        have hrid : r.id = reviewId := by
          have := List.find?_some hf
          simp only [Bool.and_eq_true, beq_iff_eq] at this
          exact this.1
        have hcr : c.reviewId = r.id := by
          have := List.mem_filter.mp hc
          simpa using this.2
        rw [hcr, hrid]

/-- C3 witness: a concrete matched pair returns exactly the review's
comments, each carrying the requested review id. -/
theorem comment_lookup_scoped_to_title_witness :
    CommentView.get_queryset ([⟨1, 1, 1, "good", 5⟩] : List Review)
        ([⟨1, 1, 2, "thanks"⟩] : List Comment) 1 1 =
      .ok [⟨1, 1, 2, "thanks"⟩] ∧
    (⟨1, 1, 2, "thanks"⟩ : Comment).reviewId = 1 :=
  ⟨by decide,
    (comment_lookup_scoped_to_title ([⟨1, 1, 1, "good", 5⟩] : List Review)
        ([⟨1, 1, 2, "thanks"⟩] : List Comment) 1 1).2
      [⟨1, 1, 2, "thanks"⟩] (by decide) ⟨1, 1, 2, "thanks"⟩ (by decide)⟩

/-- C4: the Review/Comment object-level permission allows a single-object
retrieve for every actor, and allows an update, partial update or delete
exactly when the actor is an authenticated user who is admin, moderator, or
the object's author. -/
theorem review_comment_object_permission
    (actor : Option User) (objAuthorId : Nat) :
    RetrieveOnlyOrHasCUDPermissions.check actor .retrieve objAuthorId =
      true ∧
    (∀ action,
      action ∈ [ViewAction.update, ViewAction.updatePartial,
                ViewAction.destroy] →
      (RetrieveOnlyOrHasCUDPermissions.check actor action objAuthorId =
          true ↔
        ∃ u, actor = some u ∧
          (u.is_admin = true ∨ u.is_moderator = true ∨
            u.id = objAuthorId))) := by
  constructor
  · cases actor <;>
      simp [RetrieveOnlyOrHasCUDPermissions.check,
        IsAuthenticatedOrReadOnly.has_permission,
        RetrieveOnlyOrHasCUDPermissions.has_object_permission,
        ViewAction.isSafe]
  · intro action ha
    fin_cases ha <;> cases actor <;>
      simp [RetrieveOnlyOrHasCUDPermissions.check,
        IsAuthenticatedOrReadOnly.has_permission,
        RetrieveOnlyOrHasCUDPermissions.has_object_permission,
        ViewAction.isSafe, or_assoc]

/-- C4 witness: a moderator who is not the author may destroy another
user's review. -/
theorem review_comment_object_permission_witness :
    ViewAction.destroy ∈ [ViewAction.update, ViewAction.updatePartial,
      ViewAction.destroy] ∧
    (RetrieveOnlyOrHasCUDPermissions.check
        (some ⟨1, "mod", "mod@site.org", Role.moderator, false⟩)
        .destroy 7 = true ↔
      ∃ u, (some ⟨1, "mod", "mod@site.org", Role.moderator, false⟩ :
          Option User) = some u ∧
        (u.is_admin = true ∨ u.is_moderator = true ∨ u.id = 7)) :=
  ⟨by decide,
    (review_comment_object_permission
        (some ⟨1, "mod", "mod@site.org", Role.moderator, false⟩) 7).2
      .destroy (by decide)⟩

/-- C5: evaluation of the token exchange at concrete inputs with one
stored user "alice" whose confirmation code "ok" the checker accepts.  The
unknown-username and rejected-code branches fail with NotFound and a
validation error as the claim states, but the claim's success case is
false of the code: on the valid (username, code) pair the view crashes
with an unhandled `AttributeError` (HTTP 500) instead of returning an
access token, because `AccessToken.for_user(user).access_token()` accesses
a member `AccessToken` does not have. -/
theorem token_exchange_crashes_on_valid_code :
    get_jwt_token (fun _ c => c == "ok")
        ([⟨1, "alice", "alice@site.org", Role.user, false⟩] : List User)
        "bob" "ok" = .error .notFound ∧
    get_jwt_token (fun _ c => c == "ok")
        ([⟨1, "alice", "alice@site.org", Role.user, false⟩] : List User)
        "alice" "bad" = .error .validationError ∧
    get_jwt_token (fun _ c => c == "ok")
        ([⟨1, "alice", "alice@site.org", Role.user, false⟩] : List User)
        "alice" "ok" = .error .serverError := by
  refine ⟨by decide, by decide, by decide⟩

/-- C6: `IsAdminRole` grants permission exactly to authenticated actors
whose role is admin or whose staff flag is set. -/
theorem is_admin_role_characterisation (actor : Option User) :
    IsAdminRole.has_permission actor = true ↔
      ∃ u, actor = some u ∧
        (u.role = Role.admin ∨ u.is_staff = true) := by
  cases actor <;>
    simp [IsAdminRole.has_permission, IsAuthenticated.has_permission,
      User.is_admin]

/-- C7: a signup request whose username is the reserved string "me" always
fails with a ValidationError, whatever the e-mail value, the e-mail format
check, or the stored users — so no user is created. -/
theorem signup_me_always_rejected (emailOk : String → Bool)
    (users : List User) (email : String) (newId : Nat) :
    send_confirmation_code emailOk users "me" email newId =
      .error .validationError := by
  unfold send_confirmation_code ConfirmationCodeSerializer.is_valid
  simp

/-- C8: a successful Review creation stores the acting user as author and
the path's title as parent, a successful Comment creation stores the acting
user as author and the path's review as parent, and the client-supplied
author/parent fields have no effect on either operation. -/
theorem creation_sets_author_and_parent_server_side
    (titles : List Title) (reviews : List Review) (comments : List Comment)
    (actorId titleId reviewId newId : Nat)
    (rinput : ReviewInput) (cinput : CommentInput) :
    (∀ db2, ReviewView.create titles reviews actorId titleId newId rinput =
        .ok db2 →
      ∃ r, db2 = r :: reviews ∧ r.authorId = actorId ∧
        r.titleId = titleId) ∧
    (∀ ca ct, ReviewView.create titles reviews actorId titleId newId
        ⟨rinput.text, rinput.score, ca, ct⟩ =
      ReviewView.create titles reviews actorId titleId newId rinput) ∧
    (∀ cs2, CommentView.create reviews comments actorId titleId reviewId
        newId cinput = .ok cs2 →
      ∃ c, cs2 = c :: comments ∧ c.authorId = actorId ∧
        c.reviewId = reviewId) ∧
    (∀ ca cr, CommentView.create reviews comments actorId titleId reviewId
        newId ⟨cinput.text, ca, cr⟩ =
      CommentView.create reviews comments actorId titleId reviewId newId
        cinput) := by
  refine ⟨?_, ?_, ?_, ?_⟩
  · intro db2 hok
    unfold ReviewView.create at hok
    split at hok
    · cases hok
    · split at hok
      · cases hok
      · cases hfind : titles.find? (fun t => t.id == titleId) with
        | none => rw [hfind] at hok; cases hok
        | some t =>
            rw [hfind] at hok
            injection hok with hdb2
            subst hdb2
            have ht : t.id = titleId := by
              have := List.find?_some hfind
              simpa using this
            exact ⟨_, rfl, rfl, ht⟩
  · intro ca ct
    rfl
  · intro cs2 hok
    unfold CommentView.create at hok
    cases hfind : CommentView.resolveReview reviews titleId reviewId with
    | none => rw [hfind] at hok; cases hok
    | some r =>
        rw [hfind] at hok
        injection hok with hcs2
        subst hcs2
        have hr : r.id = reviewId := by
          have := List.find?_some hfind
          simp only [Bool.and_eq_true, beq_iff_eq] at this
          exact this.1
        exact ⟨_, rfl, rfl, hr⟩
  · intro ca cr
    rfl

/-- C8 witness: with one title and one review in store, concrete review and
comment creations store the acting user and the path parents, and sending
client author/parent values changes nothing. -/
theorem creation_sets_author_and_parent_witness :
    ReviewView.create ([⟨1, "film", 2000⟩] : List Title) [] 4 1 9
        ⟨"good", 5, some 42, some 43⟩ =
      ReviewView.create ([⟨1, "film", 2000⟩] : List Title) [] 4 1 9
        ⟨"good", 5, none, none⟩ ∧
    (∃ r, ([⟨9, 1, 4, "good", 5⟩] : List Review) = r :: [] ∧
      r.authorId = 4 ∧ r.titleId = 1) ∧
    CommentView.create ([⟨1, 1, 1, "good", 5⟩] : List Review) [] 4 1 1 9
        ⟨"thanks", some 42, some 43⟩ =
      CommentView.create ([⟨1, 1, 1, "good", 5⟩] : List Review) [] 4 1 1 9
        ⟨"thanks", none, none⟩ ∧
    (∃ c, ([⟨9, 1, 4, "thanks"⟩] : List Comment) = c :: [] ∧
      c.authorId = 4 ∧ c.reviewId = 1) :=
  ⟨(creation_sets_author_and_parent_server_side
      ([⟨1, "film", 2000⟩] : List Title) [] [] 4 1 1 9
      ⟨"good", 5, none, none⟩ ⟨"thanks", none, none⟩).2.1 (some 42) (some 43),
   (creation_sets_author_and_parent_server_side
      ([⟨1, "film", 2000⟩] : List Title) [] [] 4 1 1 9
      ⟨"good", 5, none, none⟩ ⟨"thanks", none, none⟩).1
     [⟨9, 1, 4, "good", 5⟩] (by decide),
   (creation_sets_author_and_parent_server_side
      ([⟨1, "film", 2000⟩] : List Title) ([⟨1, 1, 1, "good", 5⟩] : List Review)
      [] 4 1 1 9 ⟨"good", 5, none, none⟩ ⟨"thanks", none, none⟩).2.2.2
     (some 42) (some 43),
   (creation_sets_author_and_parent_server_side
      ([⟨1, "film", 2000⟩] : List Title) ([⟨1, 1, 1, "good", 5⟩] : List Review)
      [] 4 1 1 9 ⟨"good", 5, none, none⟩ ⟨"thanks", none, none⟩).2.2.1
     [⟨9, 1, 4, "thanks"⟩] (by decide)⟩

/-- C9: when the request happens no earlier than the model load (the load
year is at most the request year), an accepted Title year is at most the
current year of the request, and a year beyond the request's current year
is rejected with a ValidationError. -/
theorem title_year_at_most_current
    (loadYear reqYear year : Nat) (hload : loadYear ≤ reqYear) :
    (∀ y, TitleViewSet.validateYear loadYear year = .ok y →
      y ≤ reqYear) ∧
    (reqYear < year →
      TitleViewSet.validateYear loadYear year =
        .error .validationError) := by
  unfold TitleViewSet.validateYear Title.yearOk
  constructor
  · intro y hy
    split at hy
    next h =>
      injection hy with h2
      subst h2
      exact le_trans (by simpa using h) hload
    next => cases hy
  · intro hlt
    have h : ¬ (year ≤ loadYear) := by omega
    simp [h]

/-- C9 witness: with load year 2023 and request year 2024, the year 2025 is
rejected. -/
theorem title_year_at_most_current_witness :
    (2023 : Nat) ≤ 2024 ∧
    TitleViewSet.validateYear 2023 2025 = .error .validationError :=
  ⟨by decide, (title_year_at_most_current 2023 2024 2025 (by decide)).2
    (by decide)⟩

/-- C10: the Category and Genre endpoints expose exactly the create, list
and destroy actions: no single-object retrieve and no update. -/
theorem category_genre_no_retrieve_no_update :
    (CategoryViewSet.actions =
        [ViewAction.create, ViewAction.list, ViewAction.destroy] ∧
      CategoryViewSet.actions.contains ViewAction.retrieve = false ∧
      CategoryViewSet.actions.contains ViewAction.update = false ∧
      CategoryViewSet.actions.contains ViewAction.updatePartial = false) ∧
    (GenreViewSet.actions =
        [ViewAction.create, ViewAction.list, ViewAction.destroy] ∧
      GenreViewSet.actions.contains ViewAction.retrieve = false ∧
      GenreViewSet.actions.contains ViewAction.update = false ∧
      GenreViewSet.actions.contains ViewAction.updatePartial = false) := by
  decide
